import Mathlib

/-!
Shallow embedding of the ribbit-next-app telemetry endpoints:
`src/pages/api/kintone/user.ts` (User Event Recorder) and the
counter/summary Reader handler.

The Firebase realtime database is modelled as an explicit `Store` of
association lists keyed by path segment.  Each primitive store call
(`get` / `set` / `update` on a path) consults a failure oracle
`Oracle : StoreOp → Bool`; a `true` answer makes that call throw, which
the TypeScript code observes as a rejected promise.  Clock instants are
local-time Unix seconds (`Nat`); `toISODate` maps an instant to its
calendar-day key, mirroring luxon's `toISODate` partitioning of local
time into days.
-/

namespace Ribbit

/-- One record under `kintone/users/{host}`. -/
structure UserRecord where
  name : String
  pluginNames : List String
deriving DecidableEq

/-- One record under `kintone/summary/{isoDate}`. -/
structure SummaryRecord where
  unixTime : Nat
  numUsers : Nat
  counter : Nat
deriving DecidableEq

/-- The realtime database contents under the `kintone/` root. -/
structure Store where
  users : List (String × UserRecord)
  counter : List (String × Nat)
  installDate : List (String × String)
  lastModified : List (String × String)
  summary : List (String × SummaryRecord)
deriving DecidableEq

def emptyStore : Store := ⟨[], [], [], [], []⟩

/-- The primitive store calls the two handlers issue, by path. -/
inductive StoreOp where
  | getUser (host : String)
  | setUser (host : String)
  | updateUserPlugins (host : String)
  | getCounter (host : String)
  | setCounter (host : String)
  | getInstallDate (host : String)
  | setInstallDate (host : String)
  | setLastModified (host : String)
  | getSummary (isoDate : String)
  | setSummary (isoDate : String)
  | getCounterRoot
deriving DecidableEq

/-- Failure oracle: `true` means that primitive store call throws. -/
def Oracle : Type := StoreOp → Bool

/-- The oracle under which every store call succeeds. -/
def noFail : Oracle := fun _ => false

/-- Association-list read (`get` on a path; `none` models a snapshot
with `exists() = false`, whose `val()` is `null`). -/
def alGet {α : Type} (l : List (String × α)) (k : String) : Option α :=
  match l with
  | [] => none
  | (k', v) :: r => if k' = k then some v else alGet r k

/-- Association-list write (`set` on a path): replace in place, or
append a fresh key. -/
def alSet {α : Type} (l : List (String × α)) (k : String) (v : α) :
    List (String × α) :=
  match l with
  | [] => [(k, v)]
  | (k', v') :: r => if k' = k then (k, v) :: r else (k', v') :: alSet r k v

/-- Day key of a local-time instant, standing in for luxon's
`toISODate`. -/
def toISODate (t : Nat) : String := toString (t / 86400)

/-- Sum of a counter mapping's values
(`Object.values(data).reduce((acc, count) => acc + count, 0)`). -/
def sumCounters (l : List (String × Nat)) : Nat :=
  (l.map Prod.snd).foldl (fun acc count => acc + count) 0

/-- The parsed JSON request body of the Recorder
(`ExpectedRequestBody` in `user.ts`); every field is optional. -/
structure ExpectedRequestBody where
  hostname : Option String
  pluginNames : Option (List String)
  page : Option String
  email : Option String
  appName : Option String
deriving DecidableEq

/-- `JSON.parse(req.body)` outcome: a syntax error, or a parsed value —
`parsed none` models JSON `null`, on which reading `.hostname` throws. -/
inductive RawBody where
  | malformed (err : String)
  | parsed (body : Option ExpectedRequestBody)
deriving DecidableEq

/-- `JSON.stringify` of a thrown error, kept abstract as the error text
itself: the response message embeds it verbatim. -/
def serializeError (e : String) : String := e

/-- `[...new Set(l)]`: deduplicate keeping first occurrences. -/
def jsDedupAux (seen : List String) : List String → List String
  | [] => []
  | x :: xs =>
    if x ∈ seen then jsDedupAux seen xs else x :: jsDedupAux (x :: seen) xs

def jsDedup (l : List String) : List String := jsDedupAux [] l

/-- `pat` is an initial segment of `l`. -/
def startsWith : List Char → List Char → Bool
  | [], _ => true
  | _ :: _, [] => false
  | p :: ps, c :: cs => p = c && startsWith ps cs

/-- Length of the platform pattern `(\.s)?\.(cybozu|kintone)\.com`
matching at the head of `l`, if any (the regex backtracks: the `.s`
alternative is tried first). -/
def platMatchLen (l : List Char) : Option Nat :=
  if startsWith ".s.cybozu.com".toList l then some 13
  else if startsWith ".s.kintone.com".toList l then some 14
  else if startsWith ".cybozu.com".toList l then some 11
  else if startsWith ".kintone.com".toList l then some 12
  else none

/-- `hostname.replace(/(\.s)?\.(cybozu|kintone)\.com/, '')`: a
non-global regex replace removes only the first (leftmost) match,
wherever it occurs in the string. -/
def stripPlatform : List Char → List Char
  | [] => []
  | c :: cs =>
    match platMatchLen (c :: cs) with
    | some n => List.drop n (c :: cs)
    | none => c :: stripPlatform cs

/-- `.replace(/\./g, '_dot_')`: every remaining dot becomes `_dot_`. -/
def replaceDots : List Char → List Char
  | [] => []
  | c :: cs => (if c = '.' then "_dot_".toList else [c]) ++ replaceDots cs

/-- The two `replace` calls of `updateRtdb`, lines 53–55. -/
def formatHostname (hostname : String) : String :=
  String.mk (replaceDots (stripPlatform hostname.toList))

/-- `body.hostname || '___undefined'` followed by `formatHostname`:
the host id a raw (absent / empty / present) hostname is stored under. -/
def hostId (hostname : Option String) : String :=
  formatHostname
    (match hostname with
     | none => "___undefined"
     | some s => if s = "" then "___undefined" else s)

/-- `updateUser` (lines 96–120): create the host record, or merge-write
the deduplicated plugin union when some requested plugin is new. -/
def updateUser (φ : Oracle) (hostname : String) (body : ExpectedRequestBody)
    (s : Store) : Except String Store :=
  if φ (.getUser hostname) then .error "get failed" else
  match alGet s.users hostname with
  | none =>
    if φ (.setUser hostname) then .error "set failed" else
    .ok { s with
          users := alSet s.users hostname ⟨"", body.pluginNames.getD []⟩ }
  | some data =>
    let pluginNames := body.pluginNames.getD []
    let registered := data.pluginNames
    let noChanges := pluginNames.all (fun plugin => registered.contains plugin)
    if noChanges then .ok s else
    if φ (.updateUserPlugins hostname) then .error "update failed" else
    .ok { s with
          users := alSet s.users hostname
            ⟨data.name, jsDedup (pluginNames ++ registered)⟩ }

/-- `updateCounter` (lines 166–175): write `current + 1`, or `1` for a
fresh host. -/
def updateCounter (φ : Oracle) (hostname : String) (s : Store) :
    Except String Store :=
  if φ (.getCounter hostname) then .error "get failed" else
  match alGet s.counter hostname with
  | some n =>
    if φ (.setCounter hostname) then .error "set failed" else
    .ok { s with counter := alSet s.counter hostname (n + 1) }
  | none =>
    if φ (.setCounter hostname) then .error "set failed" else
    .ok { s with counter := alSet s.counter hostname 1 }

/-- `updateInstallDate` (lines 177–184): write today's date only when
no install date exists yet. -/
def updateInstallDate (φ : Oracle) (hostname : String) (t : Nat) (s : Store) :
    Except String Store :=
  if φ (.getInstallDate hostname) then .error "get failed" else
  match alGet s.installDate hostname with
  | some _ => .ok s
  | none =>
    if φ (.setInstallDate hostname) then .error "set failed" else
    .ok { s with installDate := alSet s.installDate hostname (toISODate t) }

/-- The unconditional `set(ref(rtdb, lastModified/...), now.toISODate())`
of `updateRtdb` (line 90). -/
def writeLastModified (φ : Oracle) (hostname : String) (t : Nat) (s : Store) :
    Except String Store :=
  if φ (.setLastModified hostname) then .error "set failed" else
  .ok { s with lastModified := alSet s.lastModified hostname (toISODate t) }

/-- A `try { await step } catch (error) { console.error(...) }` block of
`updateRtdb`: the step's failure is logged and swallowed, leaving the
store as the step left it (every step writes at most once, as its last
call, so a failed step leaves the store unchanged). -/
def tryStep (f : Store → Except String Store) (s : Store) : Store :=
  match f s with
  | .ok s' => s'
  | .error _ => s

/-- The guarded steps 2–5 of `updateRtdb` (lines 59–93), in source
order: user record, counter, install date, last modified. -/
def rtdbSteps (φ : Oracle) (b : ExpectedRequestBody) (t : Nat) (s : Store) :
    Store :=
  writeLastModified φ (hostId b.hostname) t |> tryStep <|
    (updateInstallDate φ (hostId b.hostname) t |> tryStep <|
      (updateCounter φ (hostId b.hostname) |> tryStep <|
        (updateUser φ (hostId b.hostname) b |> tryStep <| s)))

/-- `updateRtdb` (lines 50–94).  On a JSON `null` body the very first
line `body.hostname` throws before any store call; otherwise every
step is individually guarded, so the function returns normally. -/
def updateRtdb (φ : Oracle) (body : Option ExpectedRequestBody) (t : Nat)
    (s : Store) : Except String Store :=
  match body with
  | none => .error "TypeError: body is null"
  | some b => .ok (rtdbSteps φ b t s)

/-- `updateSummary` (lines 200–226).  Its clock is
`DateTime.local().plus(\x7b hours: 9 \x7d)`: nine hours ahead of the
local instant `t`, for the day key and the stored `unixTime` alike.
Skips when today's summary exists or the counter root is empty. -/
def updateSummary (φ : Oracle) (t : Nat) (s : Store) : Except String Store :=
  let d := toISODate (t + 9 * 3600)
  if φ (.getSummary d) then .error "get failed" else
  match alGet s.summary d with
  | some _ => .ok s
  | none =>
    if φ .getCounterRoot then .error "get failed" else
    if s.counter.isEmpty then .ok s else
    let counters := s.counter.map Prod.snd
    let sum := counters.foldl (fun acc count => acc + count) 0
    if φ (.setSummary d) then .error "set failed" else
    .ok { s with
          summary := alSet s.summary d ⟨t + 9 * 3600, counters.length, sum⟩ }

/-- One delivery to the GAS fallback endpoint: `postToGAS` sends the
original parsed body spread into a JSON object with the fixed tag
`from: 'ribbit-next-app'`. -/
structure FallbackPayload where
  body : Option ExpectedRequestBody
  fromTag : String
deriving DecidableEq

/-- Everything observable from one Recorder invocation: the HTTP
response (status and `result` message; `none` when the handler never
responds), the final store, the fallback deliveries, and the value the
handler throws after responding, if any. -/
structure RecorderOutcome where
  response : Option (Nat × String)
  store : Store
  fallback : List FallbackPayload
  thrown : Option String
deriving DecidableEq

/-- The Recorder's default export (lines 18–48).  Non-`POST` methods
fall through the `if` and the handler returns without responding.  A
parse failure reaches the outer catch: a 500 embedding the serialized
error, then `throw 'API実行時にエラーが発生しました'`.  Otherwise
`updateRtdb` is awaited under a catch that sets `causedError`;
`updateSummary()` is fired without affecting control flow; on
`causedError` the body goes to the fallback (when the GAS endpoint is
configured) and the response is a 500, else a 200. -/
def recorderHandler (φ : Oracle) (gasConfigured : Bool) (method : String)
    (raw : RawBody) (t : Nat) (s : Store) : RecorderOutcome :=
  if method = "POST" then
    match raw with
    | .malformed e =>
      ⟨some (500, "予期せぬエラーが発生しました。" ++ serializeError e), s, [],
        some "API実行時にエラーが発生しました"⟩
    | .parsed body =>
      match updateRtdb φ body t s with
      | .ok s1 =>
        ⟨some (200, "データベースへ追加しました"),
          tryStep (updateSummary φ t) s1, [], none⟩
      | .error _ =>
        ⟨some (500, "予期せぬエラーが発生しました。"),
          tryStep (updateSummary φ t) s,
          if gasConfigured then [⟨body, "ribbit-next-app"⟩] else [], none⟩
  else ⟨none, s, [], none⟩

/-- Everything observable from one Reader invocation. -/
structure ReaderOutcome where
  status : Nat
  result : String
  counterTotal : Option Nat
  numUsers : Option Nat
  store : Store
deriving DecidableEq

/-- `getResponseFromRtdb` of the Reader.  Reading the counter root when
it is absent yields `snapshot.val() = null`, and `Object.values(null)`
throws.  The lazy summary write runs under its own try/catch with the
unshifted local clock `t`. -/
def getResponseFromRtdb (φ : Oracle) (t : Nat) (s : Store) :
    Except String ((String × Nat × Nat) × Store) :=
  if φ .getCounterRoot then .error "get failed" else
  if s.counter.isEmpty then .error "TypeError: Object.values of null" else
  let counters := s.counter.map Prod.snd
  let counter := counters.foldl (fun acc count => acc + count) 0
  let d := toISODate t
  let s1 :=
    if φ (.getSummary d) then s else
    match alGet s.summary d with
    | some _ => s
    | none =>
      if φ (.setSummary d) then s else
      { s with summary := alSet s.summary d ⟨t, counters.length, counter⟩ }
  .ok (("取得完了", counter, counters.length), s1)

/-- The Reader's default export: non-`GET` methods get a fixed 400; a
throw from `getResponseFromRtdb` gets a 500 embedding the serialized
error; otherwise a 200 with the totals. -/
def readerHandler (φ : Oracle) (method : String) (t : Nat) (s : Store) :
    ReaderOutcome :=
  if method = "GET" then
    match getResponseFromRtdb φ t s with
    | .ok ((msg, counter, numUsers), s1) =>
      ⟨200, msg, some counter, some numUsers, s1⟩
    | .error e =>
      ⟨500, "予期せぬエラーが発生しました。" ++ serializeError e, none, none, s⟩
  else ⟨400, "パラメータが不正です", none, none, s⟩

/-- N sequential Recorder calls (each a `POST` with a parsed object
body, all store calls succeeding), threading the store. -/
def runRecorderCalls (calls : List (ExpectedRequestBody × Nat)) (s : Store) :
    Store :=
  calls.foldl
    (fun st c =>
      (recorderHandler noFail true "POST" (.parsed (some c.1)) c.2 st).store)
    s

end Ribbit

namespace Ribbit

theorem alGet_alSet_self {α : Type} (l : List (String × α)) (k : String) (v : α) :
    alGet (alSet l k v) k = some v := by
  induction l with
  | nil => simp [alGet, alSet]
  | cons p r ih =>
    obtain ⟨k', v'⟩ := p
    by_cases h : k' = k
    · simp [alGet, alSet, h]
    · simp [alGet, alSet, h, ih]

theorem alGet_alSet_ne {α : Type} (l : List (String × α)) (k k0 : String) (v : α)
    (h : k ≠ k0) : alGet (alSet l k v) k0 = alGet l k0 := by
  induction l with
  | nil => simp [alGet, alSet, h]
  | cons p r ih =>
    obtain ⟨k', v'⟩ := p
    by_cases h' : k' = k
    · subst h'
      simp [alGet, alSet, h]
    · simp [alGet, alSet, h', ih]

theorem alSet_ne_nil {α : Type} (l : List (String × α)) (k : String) (v : α) :
    alSet l k v ≠ [] := by
  cases l with
  | nil => simp [alSet]
  | cons p r =>
    obtain ⟨k', v'⟩ := p
    by_cases h : k' = k <;> simp [alSet, h]

theorem contains_iff_mem (l : List String) (a : String) :
    l.contains a = true ↔ a ∈ l := by
  induction l with
  | nil => simp
  | cons x xs ih => simp [List.contains, List.elem_cons]

theorem mem_jsDedupAux (seen l : List String) (x : String) :
    x ∈ jsDedupAux seen l ↔ x ∈ l ∧ x ∉ seen := by
  induction l generalizing seen with
  | nil => simp [jsDedupAux]
  | cons y ys ih =>
    simp only [jsDedupAux]
    by_cases hy : y ∈ seen
    · rw [if_pos hy]
      by_cases hxy : x = y
      · subst hxy
        simp [ih, hy]
      · simp [ih, List.mem_cons, hxy]
    · rw [if_neg hy]
      by_cases hxy : x = y
      · subst hxy
        simp [List.mem_cons, ih, hy]
      · simp [List.mem_cons, ih, hxy]

theorem nodup_jsDedupAux (seen l : List String) : (jsDedupAux seen l).Nodup := by
  induction l generalizing seen with
  | nil => simp [jsDedupAux]
  | cons y ys ih =>
    by_cases hy : y ∈ seen
    · simpa [jsDedupAux, if_pos hy] using ih seen
    · simp only [jsDedupAux, if_neg hy, List.nodup_cons]
      refine ⟨?_, ih (y :: seen)⟩
      intro hc
      exact ((mem_jsDedupAux _ _ _).mp hc).2 (List.mem_cons_self _ _)

theorem mem_jsDedup (l : List String) (x : String) : x ∈ jsDedup l ↔ x ∈ l := by
  simp [jsDedup, mem_jsDedupAux]

theorem nodup_jsDedup (l : List String) : (jsDedup l).Nodup :=
  nodup_jsDedupAux [] l


theorem updateUser_shape (φ : Oracle) (h : String) (b : ExpectedRequestBody)
    (s : Store) : ∃ u, tryStep (updateUser φ h b) s = { s with users := u } := by
  unfold tryStep updateUser
  dsimp only []
  cases hφ : φ (.getUser h) with
  | true => exact ⟨_, rfl⟩
  | false =>
    cases hg : alGet s.users h with
    | none =>
      cases hs : φ (.setUser h) with
      | true => exact ⟨_, rfl⟩
      | false => exact ⟨_, rfl⟩
    | some data =>
      dsimp only []
      cases hnc : (b.pluginNames.getD []).all
          (fun plugin => data.pluginNames.contains plugin) with
      | true => exact ⟨_, rfl⟩
      | false =>
        cases hu : φ (.updateUserPlugins h) with
        | true => exact ⟨_, rfl⟩
        | false => exact ⟨_, rfl⟩

theorem updateCounter_shape (φ : Oracle) (h : String) (s : Store) :
    ∃ c, tryStep (updateCounter φ h) s = { s with counter := c } := by
  unfold tryStep updateCounter
  cases hφ : φ (.getCounter h) with
  | true => exact ⟨_, rfl⟩
  | false =>
    cases hg : alGet s.counter h with
    | none =>
      cases hs : φ (.setCounter h) with
      | true => exact ⟨_, rfl⟩
      | false => exact ⟨_, rfl⟩
    | some n =>
      cases hs : φ (.setCounter h) with
      | true => exact ⟨_, rfl⟩
      | false => exact ⟨_, rfl⟩

theorem updateInstallDate_shape (φ : Oracle) (h : String) (t : Nat) (s : Store) :
    ∃ i, tryStep (updateInstallDate φ h t) s = { s with installDate := i } := by
  unfold tryStep updateInstallDate
  cases hφ : φ (.getInstallDate h) with
  | true => exact ⟨_, rfl⟩
  | false =>
    cases hg : alGet s.installDate h with
    | none =>
      cases hs : φ (.setInstallDate h) with
      | true => exact ⟨_, rfl⟩
      | false => exact ⟨_, rfl⟩
    | some d => exact ⟨_, rfl⟩

theorem writeLastModified_shape (φ : Oracle) (h : String) (t : Nat) (s : Store) :
    ∃ m, tryStep (writeLastModified φ h t) s = { s with lastModified := m } := by
  unfold tryStep writeLastModified
  cases hφ : φ (.setLastModified h) with
  | true => exact ⟨_, rfl⟩
  | false => exact ⟨_, rfl⟩

theorem updateSummary_shape (φ : Oracle) (t : Nat) (s : Store) :
    ∃ y, tryStep (updateSummary φ t) s = { s with summary := y } := by
  unfold tryStep updateSummary
  dsimp only []
  cases hφ : φ (.getSummary (toISODate (t + 9 * 3600))) with
  | true => exact ⟨_, rfl⟩
  | false =>
    cases hg : alGet s.summary (toISODate (t + 9 * 3600)) with
    | some v => exact ⟨_, rfl⟩
    | none =>
      cases hr : φ .getCounterRoot with
      | true => exact ⟨_, rfl⟩
      | false =>
        cases he : s.counter.isEmpty with
        | true => exact ⟨_, rfl⟩
        | false =>
          cases hs : φ (.setSummary (toISODate (t + 9 * 3600))) with
          | true => exact ⟨_, rfl⟩
          | false => exact ⟨_, rfl⟩


theorem updateUser_noFail_create (h : String) (b : ExpectedRequestBody)
    (s : Store) (hg : alGet s.users h = none) :
    tryStep (updateUser noFail h b) s =
      { s with users := alSet s.users h ⟨"", b.pluginNames.getD []⟩ } := by
  unfold tryStep updateUser noFail
  simp [hg]

theorem updateUser_noFail_noChange (h : String) (b : ExpectedRequestBody)
    (s : Store) (data : UserRecord) (hg : alGet s.users h = some data)
    (hall : (b.pluginNames.getD []).all
      (fun plugin => data.pluginNames.contains plugin) = true) :
    tryStep (updateUser noFail h b) s = s := by
  unfold tryStep updateUser noFail
  dsimp only []
  rw [hg]
  dsimp only []
  rw [hall]
  rfl

theorem updateUser_noFail_merge (h : String) (b : ExpectedRequestBody)
    (s : Store) (data : UserRecord) (hg : alGet s.users h = some data)
    (hall : (b.pluginNames.getD []).all
      (fun plugin => data.pluginNames.contains plugin) = false) :
    tryStep (updateUser noFail h b) s =
      { s with
        users := alSet s.users h
          ⟨data.name, jsDedup (b.pluginNames.getD [] ++ data.pluginNames)⟩ } := by
  unfold tryStep updateUser noFail
  dsimp only []
  rw [hg]
  dsimp only []
  rw [hall]
  rfl

theorem updateCounter_noFail (h : String) (s : Store) :
    tryStep (updateCounter noFail h) s =
      { s with counter :=
          alSet s.counter h ((alGet s.counter h).getD 0 + 1) } := by
  unfold tryStep updateCounter noFail
  cases hg : alGet s.counter h <;> simp [hg]

theorem updateInstallDate_noFail_create (h : String) (t : Nat) (s : Store)
    (hg : alGet s.installDate h = none) :
    tryStep (updateInstallDate noFail h t) s =
      { s with installDate := alSet s.installDate h (toISODate t) } := by
  unfold tryStep updateInstallDate noFail
  simp [hg]

theorem updateInstallDate_keep (φ : Oracle) (h : String) (t : Nat) (s : Store)
    (v : String) (hg : alGet s.installDate h = some v) :
    tryStep (updateInstallDate φ h t) s = s := by
  unfold tryStep updateInstallDate
  cases hφ : φ (.getInstallDate h) <;> simp [hg, hφ]

theorem updateInstallDate_alGet_keep (φ : Oracle) (h : String) (t : Nat)
    (s : Store) (h0 d : String) (hd : alGet s.installDate h0 = some d) :
    alGet (tryStep (updateInstallDate φ h t) s).installDate h0 = some d := by
  cases hg : alGet s.installDate h with
  | some v => rw [updateInstallDate_keep φ h t s v hg]; exact hd
  | none =>
    have hne : h ≠ h0 := by
      intro heq
      rw [heq, hd] at hg
      cases hg
    unfold tryStep updateInstallDate
    cases hφ : φ (.getInstallDate h) with
    | true => simp [hφ, hd]
    | false =>
      cases hs : φ (.setInstallDate h) with
      | true => simp [hφ, hg, hs, hd]
      | false => simp [hφ, hg, hs, alGet_alSet_ne _ _ _ _ hne, hd]

theorem writeLastModified_noFail (h : String) (t : Nat) (s : Store) :
    tryStep (writeLastModified noFail h t) s =
      { s with lastModified := alSet s.lastModified h (toISODate t) } := rfl

theorem updateSummary_keep (φ : Oracle) (t : Nat) (s : Store) (v : SummaryRecord)
    (hg : alGet s.summary (toISODate (t + 9 * 3600)) = some v) :
    tryStep (updateSummary φ t) s = s := by
  unfold tryStep updateSummary
  dsimp only []
  cases hφ : φ (.getSummary (toISODate (t + 9 * 3600))) <;> simp [hg, hφ]

theorem updateSummary_noFail_write (t : Nat) (s : Store)
    (hg : alGet s.summary (toISODate (t + 9 * 3600)) = none)
    (hc : s.counter ≠ []) :
    tryStep (updateSummary noFail t) s =
      { s with
        summary := alSet s.summary (toISODate (t + 9 * 3600))
          ⟨t + 9 * 3600, s.counter.length, sumCounters s.counter⟩ } := by
  unfold tryStep updateSummary noFail sumCounters
  dsimp only []
  simp [hg, List.isEmpty_iff, hc]

theorem updateSummary_alGet_ne (φ : Oracle) (t : Nat) (s : Store) (d : String)
    (hd : toISODate (t + 9 * 3600) ≠ d) :
    alGet (tryStep (updateSummary φ t) s).summary d = alGet s.summary d := by
  unfold tryStep updateSummary
  dsimp only []
  cases hφ : φ (.getSummary (toISODate (t + 9 * 3600))) with
  | true => simp
  | false =>
    cases hg : alGet s.summary (toISODate (t + 9 * 3600)) with
    | some v => simp
    | none =>
      cases hr : φ .getCounterRoot with
      | true => simp
      | false =>
        cases he : s.counter.isEmpty with
        | true => simp
        | false =>
          cases hs : φ (.setSummary (toISODate (t + 9 * 3600))) with
          | true => simp
          | false => simp [alGet_alSet_ne _ _ _ _ hd]

theorem updateSummary_alGet_keep (φ : Oracle) (t : Nat) (s : Store)
    (d : String) (v : SummaryRecord) (hv : alGet s.summary d = some v) :
    alGet (tryStep (updateSummary φ t) s).summary d = some v := by
  by_cases hd : toISODate (t + 9 * 3600) = d
  · rw [updateSummary_keep φ t s v (hd ▸ hv)]
    exact hv
  · rw [updateSummary_alGet_ne φ t s d hd]
    exact hv


theorem recorderHandler_post_some (φ : Oracle) (gas : Bool)
    (b : ExpectedRequestBody) (t : Nat) (s : Store) :
    recorderHandler φ gas "POST" (.parsed (some b)) t s =
      ⟨some (200, "データベースへ追加しました"),
        tryStep (updateSummary φ t) (rtdbSteps φ b t s), [], none⟩ := rfl

theorem recorderHandler_post_null (φ : Oracle) (gas : Bool) (t : Nat)
    (s : Store) :
    recorderHandler φ gas "POST" (.parsed none) t s =
      ⟨some (500, "予期せぬエラーが発生しました。"),
        tryStep (updateSummary φ t) s,
        if gas then [⟨none, "ribbit-next-app"⟩] else [], none⟩ := rfl

theorem rtdbSteps_users (φ : Oracle) (b : ExpectedRequestBody) (t : Nat)
    (s : Store) :
    (rtdbSteps φ b t s).users =
      (tryStep (updateUser φ (hostId b.hostname) b) s).users := by
  unfold rtdbSteps
  obtain ⟨c, hc⟩ := updateCounter_shape φ (hostId b.hostname)
    (tryStep (updateUser φ (hostId b.hostname) b) s)
  obtain ⟨i, hi⟩ := updateInstallDate_shape φ (hostId b.hostname) t
    (tryStep (updateCounter φ (hostId b.hostname))
      (tryStep (updateUser φ (hostId b.hostname) b) s))
  obtain ⟨m, hm⟩ := writeLastModified_shape φ (hostId b.hostname) t
    (tryStep (updateInstallDate φ (hostId b.hostname) t)
      (tryStep (updateCounter φ (hostId b.hostname))
        (tryStep (updateUser φ (hostId b.hostname) b) s)))
  rw [hm, hi, hc]

theorem rtdbSteps_summary (φ : Oracle) (b : ExpectedRequestBody) (t : Nat)
    (s : Store) : (rtdbSteps φ b t s).summary = s.summary := by
  unfold rtdbSteps
  obtain ⟨u, hu⟩ := updateUser_shape φ (hostId b.hostname) b s
  obtain ⟨c, hc⟩ := updateCounter_shape φ (hostId b.hostname)
    (tryStep (updateUser φ (hostId b.hostname) b) s)
  obtain ⟨i, hi⟩ := updateInstallDate_shape φ (hostId b.hostname) t
    (tryStep (updateCounter φ (hostId b.hostname))
      (tryStep (updateUser φ (hostId b.hostname) b) s))
  obtain ⟨m, hm⟩ := writeLastModified_shape φ (hostId b.hostname) t
    (tryStep (updateInstallDate φ (hostId b.hostname) t)
      (tryStep (updateCounter φ (hostId b.hostname))
        (tryStep (updateUser φ (hostId b.hostname) b) s)))
  rw [hm, hi, hc, hu]

theorem rtdbSteps_counter_noFail (b : ExpectedRequestBody) (t : Nat)
    (s : Store) :
    (rtdbSteps noFail b t s).counter =
      alSet s.counter (hostId b.hostname)
        ((alGet s.counter (hostId b.hostname)).getD 0 + 1) := by
  unfold rtdbSteps
  obtain ⟨u, hu⟩ := updateUser_shape noFail (hostId b.hostname) b s
  obtain ⟨i, hi⟩ := updateInstallDate_shape noFail (hostId b.hostname) t
    (tryStep (updateCounter noFail (hostId b.hostname))
      (tryStep (updateUser noFail (hostId b.hostname) b) s))
  obtain ⟨m, hm⟩ := writeLastModified_shape noFail (hostId b.hostname) t
    (tryStep (updateInstallDate noFail (hostId b.hostname) t)
      (tryStep (updateCounter noFail (hostId b.hostname))
        (tryStep (updateUser noFail (hostId b.hostname) b) s)))
  rw [hm, hi, hu, updateCounter_noFail]

theorem rtdbSteps_installDate_create (b : ExpectedRequestBody) (t : Nat)
    (s : Store) (hg : alGet s.installDate (hostId b.hostname) = none) :
    (rtdbSteps noFail b t s).installDate =
      alSet s.installDate (hostId b.hostname) (toISODate t) := by
  unfold rtdbSteps
  obtain ⟨u, hu⟩ := updateUser_shape noFail (hostId b.hostname) b s
  obtain ⟨c, hc⟩ := updateCounter_shape noFail (hostId b.hostname)
    (tryStep (updateUser noFail (hostId b.hostname) b) s)
  obtain ⟨m, hm⟩ := writeLastModified_shape noFail (hostId b.hostname) t
    (tryStep (updateInstallDate noFail (hostId b.hostname) t)
      (tryStep (updateCounter noFail (hostId b.hostname))
        (tryStep (updateUser noFail (hostId b.hostname) b) s)))
  have hstep := updateInstallDate_noFail_create (hostId b.hostname) t
    { { s with users := u } with counter := c } hg
  rw [hm, hc, hu, hstep]

theorem rtdbSteps_installDate_keep (φ : Oracle) (b : ExpectedRequestBody)
    (t : Nat) (s : Store) (h0 d : String)
    (hd : alGet s.installDate h0 = some d) :
    alGet (rtdbSteps φ b t s).installDate h0 = some d := by
  unfold rtdbSteps
  obtain ⟨u, hu⟩ := updateUser_shape φ (hostId b.hostname) b s
  obtain ⟨c, hc⟩ := updateCounter_shape φ (hostId b.hostname)
    (tryStep (updateUser φ (hostId b.hostname) b) s)
  obtain ⟨m, hm⟩ := writeLastModified_shape φ (hostId b.hostname) t
    (tryStep (updateInstallDate φ (hostId b.hostname) t)
      (tryStep (updateCounter φ (hostId b.hostname))
        (tryStep (updateUser φ (hostId b.hostname) b) s)))
  rw [hm, hc, hu]
  exact updateInstallDate_alGet_keep φ (hostId b.hostname) t
    { { s with users := u } with counter := c } h0 d hd


theorem getResponseFromRtdb_noFail_empty (t : Nat) (s : Store)
    (hc : s.counter = []) :
    getResponseFromRtdb noFail t s =
      .error "TypeError: Object.values of null" := by
  unfold getResponseFromRtdb noFail
  simp [hc]

theorem getResponseFromRtdb_noFail_write (t : Nat) (s : Store)
    (hc : s.counter ≠ []) (hg : alGet s.summary (toISODate t) = none) :
    getResponseFromRtdb noFail t s =
      .ok (("取得完了", sumCounters s.counter, s.counter.length),
        { s with
          summary := alSet s.summary (toISODate t)
            ⟨t, s.counter.length, sumCounters s.counter⟩ }) := by
  unfold getResponseFromRtdb noFail sumCounters
  dsimp only []
  simp [hg, List.isEmpty_iff, hc]

theorem getResponseFromRtdb_noFail_keep (t : Nat) (s : Store)
    (v : SummaryRecord) (hc : s.counter ≠ [])
    (hg : alGet s.summary (toISODate t) = some v) :
    getResponseFromRtdb noFail t s =
      .ok (("取得完了", sumCounters s.counter, s.counter.length), s) := by
  unfold getResponseFromRtdb noFail sumCounters
  dsimp only []
  simp [hg, List.isEmpty_iff, hc]

theorem readerHandler_noFail_write (t : Nat) (s : Store)
    (hc : s.counter ≠ []) (hg : alGet s.summary (toISODate t) = none) :
    readerHandler noFail "GET" t s =
      ⟨200, "取得完了", some (sumCounters s.counter), some s.counter.length,
        { s with
          summary := alSet s.summary (toISODate t)
            ⟨t, s.counter.length, sumCounters s.counter⟩ }⟩ := by
  unfold readerHandler
  rw [getResponseFromRtdb_noFail_write t s hc hg]
  rfl

theorem readerHandler_noFail_keep (t : Nat) (s : Store) (v : SummaryRecord)
    (hc : s.counter ≠ []) (hg : alGet s.summary (toISODate t) = some v) :
    readerHandler noFail "GET" t s =
      ⟨200, "取得完了", some (sumCounters s.counter), some s.counter.length,
        s⟩ := by
  unfold readerHandler
  rw [getResponseFromRtdb_noFail_keep t s v hc hg]
  rfl

theorem readerHandler_noFail_empty (t : Nat) (s : Store)
    (hc : s.counter = []) :
    readerHandler noFail "GET" t s =
      ⟨500, "予期せぬエラーが発生しました。" ++
          serializeError "TypeError: Object.values of null",
        none, none, s⟩ := by
  unfold readerHandler
  rw [getResponseFromRtdb_noFail_empty t s hc]
  rfl

theorem readerHandler_store_shape (φ : Oracle) (method : String) (t : Nat)
    (s : Store) :
    ∃ y, (readerHandler φ method t s).store = { s with summary := y } := by
  unfold readerHandler getResponseFromRtdb
  dsimp only []
  by_cases hm : method = "GET"
  · rw [if_pos hm]
    cases hφ : φ .getCounterRoot with
    | true => exact ⟨_, rfl⟩
    | false =>
      cases he : s.counter.isEmpty with
      | true => exact ⟨_, rfl⟩
      | false =>
        cases hg2 : φ (.getSummary (toISODate t)) with
        | true => exact ⟨_, rfl⟩
        | false =>
          cases halg : alGet s.summary (toISODate t) with
          | some w => exact ⟨_, rfl⟩
          | none =>
            cases hset : φ (.setSummary (toISODate t)) with
            | true => exact ⟨_, rfl⟩
            | false => exact ⟨_, rfl⟩
  · rw [if_neg hm]
    exact ⟨_, rfl⟩

theorem readerHandler_summary_keep (φ : Oracle) (method : String) (t : Nat)
    (s : Store) (d : String) (v : SummaryRecord)
    (hv : alGet s.summary d = some v) :
    alGet (readerHandler φ method t s).store.summary d = some v := by
  unfold readerHandler getResponseFromRtdb
  dsimp only []
  by_cases hm : method = "GET"
  · rw [if_pos hm]
    cases hφ : φ .getCounterRoot with
    | true => exact hv
    | false =>
      cases he : s.counter.isEmpty with
      | true => exact hv
      | false =>
        cases hg2 : φ (.getSummary (toISODate t)) with
        | true => exact hv
        | false =>
          cases halg : alGet s.summary (toISODate t) with
          | some w => exact hv
          | none =>
            cases hset : φ (.setSummary (toISODate t)) with
            | true => exact hv
            | false =>
              have hne : toISODate t ≠ d := by
                intro he2
                rw [he2, hv] at halg
                cases halg
              show alGet (alSet s.summary (toISODate t) _) d = some v
              rw [alGet_alSet_ne _ _ _ _ hne]
              exact hv
  · rw [if_neg hm]
    exact hv

theorem readerHandler_summary_absent (φ : Oracle) (method : String) (t : Nat)
    (s : Store) (d : String) (hnone : alGet s.summary d = none)
    (hne : toISODate t ≠ d) :
    alGet (readerHandler φ method t s).store.summary d = none := by
  unfold readerHandler getResponseFromRtdb
  dsimp only []
  by_cases hm : method = "GET"
  · rw [if_pos hm]
    cases hφ : φ .getCounterRoot with
    | true => exact hnone
    | false =>
      cases he : s.counter.isEmpty with
      | true => exact hnone
      | false =>
        cases hg2 : φ (.getSummary (toISODate t)) with
        | true => exact hnone
        | false =>
          cases halg : alGet s.summary (toISODate t) with
          | some w => exact hnone
          | none =>
            cases hset : φ (.setSummary (toISODate t)) with
            | true => exact hnone
            | false =>
              show alGet (alSet s.summary (toISODate t) _) d = none
              rw [alGet_alSet_ne _ _ _ _ hne]
              exact hnone
  · rw [if_neg hm]
    exact hnone


/-- The host-id derivation as the specification words it (claim C4):
strip one platform suffix when the hostname ends with it (longest
alternative first), then replace each remaining dot with `_dot_`;
absent or empty hostnames map to the fixed sentinel.  Stated from the
spec's words, for comparison with `hostId`, which embeds the source's
regex semantics. -/
def endsWithL (pat l : List Char) : Bool := startsWith pat.reverse l.reverse

def specHostId (hostname : Option String) : String :=
  match hostname with
  | none => "___undefined"
  | some s =>
    if s = "" then "___undefined" else
    String.mk (replaceDots (
      if endsWithL ".s.cybozu.com".toList s.toList then
        s.toList.take (s.toList.length - 13)
      else if endsWithL ".s.kintone.com".toList s.toList then
        s.toList.take (s.toList.length - 14)
      else if endsWithL ".cybozu.com".toList s.toList then
        s.toList.take (s.toList.length - 11)
      else if endsWithL ".kintone.com".toList s.toList then
        s.toList.take (s.toList.length - 12)
      else s.toList))

/-- C4 counterexample: on `"a.cybozu.com.b"` the code's non-anchored,
first-occurrence regex replace yields `a_dot_b`, while the claimed
suffix-stripping procedure leaves the platform substring in place and
yields `a_dot_cybozu_dot_com_dot_b`; the claim's universal description
of `hostId` as suffix stripping is therefore false at this input. -/
theorem C4_counterexample :
    hostId (some "a.cybozu.com.b") = "a_dot_b" ∧
    specHostId (some "a.cybozu.com.b") = "a_dot_cybozu_dot_com_dot_b" ∧
    hostId (some "a.cybozu.com.b") ≠ specHostId (some "a.cybozu.com.b") := by
  refine ⟨by decide, by decide, by decide⟩

/-- C4 (amended): the derived host id removes the first (leftmost)
occurrence of the platform pattern — optional `.s`, then `.cybozu` or
`.kintone`, then `.com` — wherever it occurs in the hostname (which
coincides with suffix stripping whenever the pattern occurs only as a
suffix), then replaces each remaining dot with `_dot_`; the claim's
concrete examples all hold, and an absent or empty hostname maps to the
sentinel `___undefined`. -/
theorem C4_hostname_normalization :
    hostId (some "foo.cybozu.com") = "foo" ∧
    hostId (some "foo.s.cybozu.com") = "foo" ∧
    hostId (some "foo.kintone.com") = "foo" ∧
    hostId (some "foo.s.kintone.com") = "foo" ∧
    hostId (some "a.b.cybozu.com") = "a_dot_b" ∧
    hostId none = "___undefined" ∧
    hostId (some "") = "___undefined" ∧
    specHostId (some "foo.cybozu.com") = "foo" ∧
    specHostId (some "foo.s.kintone.com") = "foo" ∧
    specHostId (some "a.b.cybozu.com") = "a_dot_b" ∧
    hostId (some "a.cybozu.com.b") = "a_dot_b" := by
  refine ⟨by decide, by decide, by decide, by decide, by decide, by decide,
    by decide, by decide, by decide, by decide, by decide⟩

/-- C10: a Recorder request whose method is not `POST` falls through the
handler's single `if` with no response, no store change, no fallback and
no thrown value, while the Reader rejects a non-`GET` method with a 400
and its fixed message, also leaving the store unchanged. -/
theorem C10_method_gate (φ : Oracle) (gasConfigured : Bool) (method : String)
    (raw : RawBody) (t : Nat) (s : Store) :
    (method ≠ "POST" →
      recorderHandler φ gasConfigured method raw t s = ⟨none, s, [], none⟩) ∧
    (method ≠ "GET" →
      readerHandler φ method t s = ⟨400, "パラメータが不正です", none, none, s⟩) := by
  constructor
  · intro hm
    unfold recorderHandler
    rw [if_neg hm]
  · intro hm
    unfold readerHandler
    rw [if_neg hm]

theorem C10_method_gate_witness :
    ("GET" : String) ≠ "POST" ∧
    recorderHandler noFail true "GET" (.parsed none) 0 emptyStore =
      ⟨none, emptyStore, [], none⟩ ∧
    ("POST" : String) ≠ "GET" ∧
    readerHandler noFail "POST" 0 emptyStore =
      ⟨400, "パラメータが不正です", none, none, emptyStore⟩ :=
  ⟨by decide,
    (C10_method_gate noFail true "GET" (.parsed none) 0 emptyStore).1
      (by decide),
    by decide,
    (C10_method_gate noFail true "POST" (.parsed none) 0 emptyStore).2
      (by decide)⟩

/-- C9: a malformed JSON body reaches the Recorder's outer catch, which
responds 500 with the serialized error embedded in the message and then
throws the fixed marker string — a signal absent from every parsed-body
run, which never throws. -/
theorem C9_malformed_body (φ : Oracle) (gasConfigured : Bool) (e : String)
    (t : Nat) (s : Store) :
    recorderHandler φ gasConfigured "POST" (.malformed e) t s =
      ⟨some (500, "予期せぬエラーが発生しました。" ++ serializeError e), s, [],
        some "API実行時にエラーが発生しました"⟩ ∧
    (∀ body : Option ExpectedRequestBody,
      (recorderHandler φ gasConfigured "POST" (.parsed body) t s).thrown =
        none) := by
  constructor
  · rfl
  · intro body
    cases body with
    | none => rw [recorderHandler_post_null]
    | some b => rw [recorderHandler_post_some]

/-- The request body used by the concrete runs below. -/
def bodyFoo : ExpectedRequestBody :=
  ⟨some "foo.cybozu.com", some ["p1"], none, none, none⟩

/-- An oracle that fails exactly the `get` on `users/foo` — a store
failure inside step 2 of the host-update sequence. -/
def failGetUserFoo : Oracle := fun op => op == .getUser "foo"

/-- C1 counterexample: with the store failing on the host-update step's
`users/foo` read, the Recorder still answers 200 and never invokes the
fallback — each of steps 2–5 has its own catch inside `updateRtdb`, so
`causedError` is never set by a store failure there; the claimed 500
plus one fallback delivery does not happen. -/
theorem C1_counterexample :
    failGetUserFoo (.getUser "foo") = true ∧
    (recorderHandler failGetUserFoo true "POST" (.parsed (some bodyFoo)) 0
        emptyStore).response = some (200, "データベースへ追加しました") ∧
    (recorderHandler failGetUserFoo true "POST" (.parsed (some bodyFoo)) 0
        emptyStore).fallback = [] := by
  refine ⟨rfl, by decide, by decide⟩

/-- C1 (amended): store failures inside steps 2–5 are each caught and
logged within the host-update sequence, so for every oracle and every
parsed object body the Recorder answers 200 with no fallback delivery
and nothing thrown; the fallback (invoked once, with the original body
plus the fixed `from` tag) and the 500 response occur exactly when the
host-update sequence throws outside those per-step guards, as it does
when the parsed body is JSON `null`. -/
theorem C1_fallback_only_on_uncaught (φ : Oracle) (gasConfigured : Bool)
    (b : ExpectedRequestBody) (t : Nat) (s : Store) :
    ((recorderHandler φ gasConfigured "POST" (.parsed (some b)) t s).response =
        some (200, "データベースへ追加しました") ∧
      (recorderHandler φ gasConfigured "POST" (.parsed (some b)) t
          s).fallback = [] ∧
      (recorderHandler φ gasConfigured "POST" (.parsed (some b)) t s).thrown =
        none) ∧
    ((recorderHandler φ true "POST" (.parsed none) t s).response =
        some (500, "予期せぬエラーが発生しました。") ∧
      (recorderHandler φ true "POST" (.parsed none) t s).fallback =
        [⟨none, "ribbit-next-app"⟩]) := by
  refine ⟨⟨?_, ?_, ?_⟩, ?_, ?_⟩
  · rw [recorderHandler_post_some]
  · rw [recorderHandler_post_some]
  · rw [recorderHandler_post_some]
  · rw [recorderHandler_post_null]
  · rw [recorderHandler_post_null]
    rfl

/-- Store calls belonging to the Daily Summary step (`updateSummary`):
the summary read/write and the counter-root read. -/
def isSummaryOp : StoreOp → Bool
  | .getSummary _ => true
  | .setSummary _ => true
  | .getCounterRoot => true
  | _ => false

theorem summaryOnly_false (φ : Oracle)
    (hφ : ∀ op, φ op = true → isSummaryOp op = true) (op : StoreOp)
    (hop : isSummaryOp op = false) : φ op = false := by
  cases hx : φ op with
  | false => rfl
  | true => rw [hφ op hx] at hop; cases hop

theorem updateUser_congr (φ : Oracle) (h : String) (b : ExpectedRequestBody)
    (s : Store) (h1 : φ (.getUser h) = false) (h2 : φ (.setUser h) = false)
    (h3 : φ (.updateUserPlugins h) = false) :
    updateUser φ h b s = updateUser noFail h b s := by
  unfold updateUser noFail
  rw [h1, h2, h3]

theorem updateCounter_congr (φ : Oracle) (h : String) (s : Store)
    (h1 : φ (.getCounter h) = false) (h2 : φ (.setCounter h) = false) :
    updateCounter φ h s = updateCounter noFail h s := by
  unfold updateCounter noFail
  rw [h1, h2]

theorem updateInstallDate_congr (φ : Oracle) (h : String) (t : Nat) (s : Store)
    (h1 : φ (.getInstallDate h) = false)
    (h2 : φ (.setInstallDate h) = false) :
    updateInstallDate φ h t s = updateInstallDate noFail h t s := by
  unfold updateInstallDate noFail
  rw [h1, h2]

theorem writeLastModified_congr (φ : Oracle) (h : String) (t : Nat) (s : Store)
    (h1 : φ (.setLastModified h) = false) :
    writeLastModified φ h t s = writeLastModified noFail h t s := by
  unfold writeLastModified noFail
  rw [h1]

theorem rtdbSteps_summaryOnly (φ : Oracle) (b : ExpectedRequestBody) (t : Nat)
    (s : Store) (hφ : ∀ op, φ op = true → isSummaryOp op = true) :
    rtdbSteps φ b t s = rtdbSteps noFail b t s := by
  unfold rtdbSteps tryStep
  rw [updateUser_congr φ (hostId b.hostname) b s
      (summaryOnly_false φ hφ _ rfl) (summaryOnly_false φ hφ _ rfl)
      (summaryOnly_false φ hφ _ rfl)]
  rw [updateCounter_congr φ (hostId b.hostname) _
      (summaryOnly_false φ hφ _ rfl) (summaryOnly_false φ hφ _ rfl)]
  rw [updateInstallDate_congr φ (hostId b.hostname) t _
      (summaryOnly_false φ hφ _ rfl) (summaryOnly_false φ hφ _ rfl)]
  rw [writeLastModified_congr φ (hostId b.hostname) t _
      (summaryOnly_false φ hφ _ rfl)]

/-- C6: when the oracle can fail only Daily Summary store calls, the
Recorder's response on a parsed object body is the same as in the
failure-free run — a 200 with the success message, no fallback, nothing
thrown — and the host-update fields (users, counter, install date) are
exactly those of the failure-free run: a summary failure is never
client-visible. -/
theorem C6_summary_failure_not_client_visible (φ : Oracle)
    (gasConfigured : Bool) (b : ExpectedRequestBody) (t : Nat) (s : Store)
    (hφ : ∀ op, φ op = true → isSummaryOp op = true) :
    (recorderHandler φ gasConfigured "POST" (.parsed (some b)) t s).response =
      (recorderHandler noFail gasConfigured "POST" (.parsed (some b)) t
        s).response ∧
    (recorderHandler φ gasConfigured "POST" (.parsed (some b)) t s).response =
      some (200, "データベースへ追加しました") ∧
    (recorderHandler φ gasConfigured "POST" (.parsed (some b)) t s).fallback =
      [] ∧
    (recorderHandler φ gasConfigured "POST" (.parsed (some b)) t s).thrown =
      none ∧
    (recorderHandler φ gasConfigured "POST" (.parsed (some b)) t
        s).store.users =
      (recorderHandler noFail gasConfigured "POST" (.parsed (some b)) t
        s).store.users ∧
    (recorderHandler φ gasConfigured "POST" (.parsed (some b)) t
        s).store.counter =
      (recorderHandler noFail gasConfigured "POST" (.parsed (some b)) t
        s).store.counter ∧
    (recorderHandler φ gasConfigured "POST" (.parsed (some b)) t
        s).store.installDate =
      (recorderHandler noFail gasConfigured "POST" (.parsed (some b)) t
        s).store.installDate := by
  have hsteps := rtdbSteps_summaryOnly φ b t s hφ
  rw [recorderHandler_post_some, recorderHandler_post_some, hsteps]
  obtain ⟨y1, hy1⟩ := updateSummary_shape φ t (rtdbSteps noFail b t s)
  obtain ⟨y2, hy2⟩ := updateSummary_shape noFail t (rtdbSteps noFail b t s)
  rw [hy1, hy2]
  exact ⟨rfl, rfl, rfl, rfl, rfl, rfl, rfl⟩

/-- The oracle that fails every Daily Summary store call. -/
def failSummaryOps : Oracle := fun op => isSummaryOp op

theorem C6_summary_failure_not_client_visible_witness :
    (∀ op, failSummaryOps op = true → isSummaryOp op = true) ∧
    (recorderHandler failSummaryOps true "POST" (.parsed (some bodyFoo)) 0
        emptyStore).response =
      some (200, "データベースへ追加しました") :=
  ⟨fun _ h => h,
    (C6_summary_failure_not_client_visible failSummaryOps true bodyFoo 0
      emptyStore (fun _ h => h)).2.1⟩


/-- A store holding one host counter, used by concrete runs below. -/
def storeOneHost : Store := ⟨[], [("h", 1)], [], [], []⟩

/-- C7: the Recorder's Daily Summary step dates its key and `unixTime`
from a clock nine hours ahead of the local instant `t`, while the
Reader's summary step uses `t` itself with no offset; there are
instants where the two day keys differ, so the two components can write
different `summary/{isoDate}` entries for the same instant. -/
theorem C7_summary_clock_offset (t : Nat) (s : Store) :
    (alGet s.summary (toISODate (t + 9 * 3600)) = none → s.counter ≠ [] →
      tryStep (updateSummary noFail t) s =
        { s with
          summary := alSet s.summary (toISODate (t + 9 * 3600))
            ⟨t + 9 * 3600, s.counter.length, sumCounters s.counter⟩ }) ∧
    (alGet s.summary (toISODate t) = none → s.counter ≠ [] →
      readerHandler noFail "GET" t s =
        ⟨200, "取得完了", some (sumCounters s.counter), some s.counter.length,
          { s with
            summary := alSet s.summary (toISODate t)
              ⟨t, s.counter.length, sumCounters s.counter⟩ }⟩) ∧
    (∃ t0 : Nat, toISODate (t0 + 9 * 3600) ≠ toISODate t0) := by
  refine ⟨?_, ?_, ⟨60000, by decide⟩⟩
  · intro hg hc
    exact updateSummary_noFail_write t s hg hc
  · intro hg hc
    exact readerHandler_noFail_write t s hc hg

theorem C7_summary_clock_offset_witness :
    alGet storeOneHost.summary (toISODate (0 + 9 * 3600)) = none ∧
    storeOneHost.counter ≠ [] ∧
    alGet storeOneHost.summary (toISODate 0) = none ∧
    tryStep (updateSummary noFail 0) storeOneHost =
      { storeOneHost with
        summary := alSet storeOneHost.summary (toISODate (0 + 9 * 3600))
          ⟨0 + 9 * 3600, storeOneHost.counter.length,
            sumCounters storeOneHost.counter⟩ } ∧
    readerHandler noFail "GET" 0 storeOneHost =
      ⟨200, "取得完了", some (sumCounters storeOneHost.counter),
        some storeOneHost.counter.length,
        { storeOneHost with
          summary := alSet storeOneHost.summary (toISODate 0)
            ⟨0, storeOneHost.counter.length,
              sumCounters storeOneHost.counter⟩ }⟩ :=
  ⟨rfl, by decide, rfl,
    (C7_summary_clock_offset 0 storeOneHost).1 rfl (by decide),
    (C7_summary_clock_offset 0 storeOneHost).2.1 rfl (by decide)⟩

/-- A store where host `foo` already has an install date. -/
def storeInst : Store := ⟨[], [], [("foo", "0")], [], []⟩

/-- C8: the first successful Recorder call for a fresh host writes
today's date under `installDate/{hostId}`, and once an install date is
stored no Recorder invocation (any method, any raw body, any store
failures) and no Reader invocation ever changes it. -/
theorem C8_install_date_immutable (h0 : String) :
    (∀ (b : ExpectedRequestBody) (t : Nat) (s : Store),
      hostId b.hostname = h0 → alGet s.installDate h0 = none →
      alGet ((recorderHandler noFail true "POST" (.parsed (some b)) t
          s).store.installDate) h0 = some (toISODate t)) ∧
    (∀ (d : String) (φ : Oracle) (gasConfigured : Bool) (method : String)
        (raw : RawBody) (t : Nat) (s : Store),
      alGet s.installDate h0 = some d →
      alGet ((recorderHandler φ gasConfigured method raw t
          s).store.installDate) h0 = some d) ∧
    (∀ (d : String) (φ : Oracle) (method : String) (t : Nat) (s : Store),
      alGet s.installDate h0 = some d →
      alGet ((readerHandler φ method t s).store.installDate) h0 = some d) := by
  refine ⟨?_, ?_, ?_⟩
  · intro b t s hb hnone
    subst hb
    rw [recorderHandler_post_some]
    obtain ⟨y, hy⟩ := updateSummary_shape noFail t (rtdbSteps noFail b t s)
    rw [hy]
    show alGet (rtdbSteps noFail b t s).installDate (hostId b.hostname) = _
    rw [rtdbSteps_installDate_create b t s hnone, alGet_alSet_self]
  · intro d φ gasConfigured method raw t s hd
    by_cases hm : method = "POST"
    · subst hm
      cases raw with
      | malformed e => exact hd
      | parsed body =>
        cases body with
        | none =>
          rw [recorderHandler_post_null]
          obtain ⟨y, hy⟩ := updateSummary_shape φ t s
          rw [hy]
          exact hd
        | some b =>
          rw [recorderHandler_post_some]
          obtain ⟨y, hy⟩ := updateSummary_shape φ t (rtdbSteps φ b t s)
          rw [hy]
          exact rtdbSteps_installDate_keep φ b t s h0 d hd
    · rw [(C10_method_gate φ gasConfigured method raw t s).1 hm]
      exact hd
  · intro d φ method t s hd
    obtain ⟨y, hy⟩ := readerHandler_store_shape φ method t s
    rw [hy]
    exact hd

theorem C8_install_date_immutable_witness :
    hostId bodyFoo.hostname = "foo" ∧
    alGet emptyStore.installDate "foo" = none ∧
    alGet ((recorderHandler noFail true "POST" (.parsed (some bodyFoo)) 0
        emptyStore).store.installDate) "foo" = some (toISODate 0) ∧
    alGet storeInst.installDate "foo" = some "0" ∧
    alGet ((recorderHandler noFail true "POST" (.parsed (some bodyFoo))
        100000 storeInst).store.installDate) "foo" = some "0" ∧
    alGet ((readerHandler noFail "GET" 100000
        storeInst).store.installDate) "foo" = some "0" :=
  ⟨by decide, rfl,
    (C8_install_date_immutable "foo").1 bodyFoo 0 emptyStore (by decide) rfl,
    rfl,
    (C8_install_date_immutable "foo").2.1 "0" noFail true "POST"
      (.parsed (some bodyFoo)) 100000 storeInst rfl,
    (C8_install_date_immutable "foo").2.2 "0" noFail "GET" 100000 storeInst
      rfl⟩


theorem runRecorderCalls_cons (c : ExpectedRequestBody × Nat)
    (rest : List (ExpectedRequestBody × Nat)) (s : Store) :
    runRecorderCalls (c :: rest) s =
      runRecorderCalls rest
        (recorderHandler noFail true "POST" (.parsed (some c.1)) c.2
          s).store := rfl

theorem recorder_counter_increment (gasConfigured : Bool)
    (b : ExpectedRequestBody) (t : Nat) (s : Store) :
    (recorderHandler noFail gasConfigured "POST" (.parsed (some b)) t
        s).store.counter =
      alSet s.counter (hostId b.hostname)
        ((alGet s.counter (hostId b.hostname)).getD 0 + 1) := by
  rw [recorderHandler_post_some]
  obtain ⟨y, hy⟩ := updateSummary_shape noFail t (rtdbSteps noFail b t s)
  rw [hy]
  exact rtdbSteps_counter_noFail b t s

theorem runRecorderCalls_counter_aux (h : String)
    (calls : List (ExpectedRequestBody × Nat)) (s : Store) (k : Nat)
    (hall : ∀ c ∈ calls, hostId c.1.hostname = h)
    (hk : alGet s.counter h = some k) :
    alGet (runRecorderCalls calls s).counter h = some (k + calls.length) := by
  induction calls generalizing s k with
  | nil => simpa using hk
  | cons c rest ih =>
    rw [runRecorderCalls_cons]
    have hc : hostId c.1.hostname = h := hall c (List.mem_cons_self _ _)
    have hnext :
        alGet (recorderHandler noFail true "POST" (.parsed (some c.1)) c.2
          s).store.counter h = some (k + 1) := by
      rw [recorder_counter_increment, hc, alGet_alSet_self, hk]
      rfl
    have hrest := ih
      (recorderHandler noFail true "POST" (.parsed (some c.1)) c.2 s).store
      (k + 1) (fun c' hc' => hall c' (List.mem_cons_of_mem _ hc')) hnext
    rw [hrest, List.length_cons]
    congr 1
    omega

/-- C2: starting from a store with no counter entry for host `h`, a
non-empty sequence of Recorder calls whose hostnames all derive to `h`
(each a `POST` with a parsed body and no store failures) leaves
`counter/{h}` equal to the number of calls: the first call creates it
at 1 and every later call adds 1. -/
theorem C2_counter_counts_calls (h : String) (c : ExpectedRequestBody × Nat)
    (rest : List (ExpectedRequestBody × Nat)) (s : Store)
    (hall : ∀ x ∈ c :: rest, hostId x.1.hostname = h)
    (hfresh : alGet s.counter h = none) :
    alGet (runRecorderCalls (c :: rest) s).counter h =
      some (c :: rest).length := by
  rw [runRecorderCalls_cons]
  have hc : hostId c.1.hostname = h := hall c (List.mem_cons_self _ _)
  have h1 :
      alGet (recorderHandler noFail true "POST" (.parsed (some c.1)) c.2
        s).store.counter h = some 1 := by
    rw [recorder_counter_increment, hc, alGet_alSet_self, hfresh]
    rfl
  have hrest := runRecorderCalls_counter_aux h rest
    (recorderHandler noFail true "POST" (.parsed (some c.1)) c.2 s).store 1
    (fun x hx => hall x (List.mem_cons_of_mem _ hx)) h1
  rw [hrest, List.length_cons]
  congr 1
  omega

theorem C2_counter_counts_calls_witness :
    (∀ x ∈ [(bodyFoo, 0), (bodyFoo, 100000)], hostId x.1.hostname = "foo") ∧
    alGet emptyStore.counter "foo" = none ∧
    alGet (runRecorderCalls [(bodyFoo, 0), (bodyFoo, 100000)]
        emptyStore).counter "foo" = some 2 :=
  ⟨by decide, rfl,
    C2_counter_counts_calls "foo" (bodyFoo, 0) [(bodyFoo, 100000)] emptyStore
      (by decide) rfl⟩


theorem recorder_users (gasConfigured : Bool) (b : ExpectedRequestBody)
    (t : Nat) (s : Store) :
    (recorderHandler noFail gasConfigured "POST" (.parsed (some b)) t
        s).store.users =
      (tryStep (updateUser noFail (hostId b.hostname) b) s).users := by
  rw [recorderHandler_post_some]
  obtain ⟨y, hy⟩ := updateSummary_shape noFail t (rtdbSteps noFail b t s)
  rw [hy]
  exact rtdbSteps_users noFail b t s

theorem updateUser_alGet_other (φ : Oracle) (h h0 : String)
    (b : ExpectedRequestBody) (s : Store) (hne : h ≠ h0) :
    alGet (tryStep (updateUser φ h b) s).users h0 = alGet s.users h0 := by
  unfold tryStep updateUser
  cases hφ : φ (.getUser h) with
  | true => rfl
  | false =>
    cases hg : alGet s.users h with
    | none =>
      cases hs : φ (.setUser h) with
      | true => rfl
      | false =>
        show alGet (alSet s.users h _) h0 = _
        exact alGet_alSet_ne _ _ _ _ hne
    | some data =>
      dsimp only []
      cases hnc : (b.pluginNames.getD []).all
          (fun plugin => data.pluginNames.contains plugin) with
      | true => rfl
      | false =>
        cases hu : φ (.updateUserPlugins h) with
        | true => rfl
        | false =>
          show alGet (alSet s.users h _) h0 = _
          exact alGet_alSet_ne _ _ _ _ hne

theorem runRecorderCalls_users_aux (h : String)
    (calls : List (ExpectedRequestBody × Nat)) (s : Store) (rec : UserRecord)
    (hall : ∀ c ∈ calls, hostId c.1.hostname = h)
    (hrec : alGet s.users h = some rec) :
    ∃ rec' : UserRecord,
      alGet (runRecorderCalls calls s).users h = some rec' ∧
      (∀ x, x ∈ rec'.pluginNames ↔
        x ∈ rec.pluginNames ∨ ∃ c ∈ calls, x ∈ c.1.pluginNames.getD []) ∧
      (rec.pluginNames.Nodup → rec'.pluginNames.Nodup) := by
  induction calls generalizing s rec with
  | nil =>
    exact ⟨rec, by simpa using hrec, fun x => by simp, fun hn => hn⟩
  | cons c rest ih =>
    rw [runRecorderCalls_cons]
    have hc : hostId c.1.hostname = h := hall c (List.mem_cons_self _ _)
    have hallr : ∀ c' ∈ rest, hostId c'.1.hostname = h :=
      fun c' hc' => hall c' (List.mem_cons_of_mem _ hc')
    cases hnc : (c.1.pluginNames.getD []).all
        (fun p => rec.pluginNames.contains p) with
    | true =>
      have hstep : alGet (recorderHandler noFail true "POST"
          (.parsed (some c.1)) c.2 s).store.users h = some rec := by
        rw [recorder_users, hc,
          updateUser_noFail_noChange h c.1 s rec hrec hnc]
        exact hrec
      obtain ⟨rec', h1, h2, h3⟩ := ih _ rec hallr hstep
      refine ⟨rec', h1, ?_, h3⟩
      intro x
      rw [h2 x]
      have hsub : ∀ y ∈ c.1.pluginNames.getD [], y ∈ rec.pluginNames := by
        intro y hy
        exact (contains_iff_mem _ _).mp (List.all_eq_true.mp hnc y hy)
      constructor
      · rintro (hx | ⟨c', hc', hx⟩)
        · exact Or.inl hx
        · exact Or.inr ⟨c', List.mem_cons_of_mem _ hc', hx⟩
      · rintro (hx | ⟨c', hc', hx⟩)
        · exact Or.inl hx
        · rcases List.mem_cons.mp hc' with heq | hc''
          · exact Or.inl (hsub x (heq ▸ hx))
          · exact Or.inr ⟨c', hc'', hx⟩
    | false =>
      have hstep : alGet (recorderHandler noFail true "POST"
          (.parsed (some c.1)) c.2 s).store.users h =
          some ⟨rec.name,
            jsDedup (c.1.pluginNames.getD [] ++ rec.pluginNames)⟩ := by
        rw [recorder_users, hc,
          updateUser_noFail_merge h c.1 s rec hrec hnc]
        exact alGet_alSet_self _ _ _
      obtain ⟨rec', h1, h2, h3⟩ := ih _ _ hallr hstep
      refine ⟨rec', h1, ?_, fun _ => h3 (nodup_jsDedup _)⟩
      intro x
      rw [h2 x]
      have hmem : x ∈ jsDedup (c.1.pluginNames.getD [] ++ rec.pluginNames) ↔
          x ∈ c.1.pluginNames.getD [] ∨ x ∈ rec.pluginNames := by
        rw [mem_jsDedup, List.mem_append]
      constructor
      · rintro (hx | ⟨c', hc', hx⟩)
        · rcases hmem.mp hx with hp | hr
          · exact Or.inr ⟨c, List.mem_cons_self _ _, hp⟩
          · exact Or.inl hr
        · exact Or.inr ⟨c', List.mem_cons_of_mem _ hc', hx⟩
      · rintro (hr | ⟨c', hc', hx⟩)
        · exact Or.inl (hmem.mpr (Or.inr hr))
        · rcases List.mem_cons.mp hc' with heq | hc''
          · exact Or.inl (hmem.mpr (Or.inl (heq ▸ hx)))
          · exact Or.inr ⟨c', hc'', hx⟩

/-- C3 (amended): for a fresh host, a non-empty failure-free sequence of
Recorder calls carrying plugin lists P1..Pn leaves a stored plugin list
whose members are exactly the union of the Pi; it is duplicate-free
provided P1 is (the creating call stores P1 verbatim, while every merge
write deduplicates); and one further Recorder call, for any host and
body, never removes a plugin from the stored record. -/
theorem C3_plugin_union (h : String) (c : ExpectedRequestBody × Nat)
    (rest : List (ExpectedRequestBody × Nat)) (s : Store)
    (hall : ∀ x ∈ c :: rest, hostId x.1.hostname = h)
    (hfresh : alGet s.users h = none) :
    (∃ rec : UserRecord,
      alGet (runRecorderCalls (c :: rest) s).users h = some rec ∧
      (∀ x, x ∈ rec.pluginNames ↔
        ∃ cc ∈ c :: rest, x ∈ cc.1.pluginNames.getD []) ∧
      ((c.1.pluginNames.getD []).Nodup → rec.pluginNames.Nodup)) ∧
    (∀ (b : ExpectedRequestBody) (t : Nat) (s1 : Store) (rec1 : UserRecord)
        (x : String), alGet s1.users h = some rec1 → x ∈ rec1.pluginNames →
      ∃ rec2 : UserRecord,
        alGet (recorderHandler noFail true "POST" (.parsed (some b)) t
          s1).store.users h = some rec2 ∧ x ∈ rec2.pluginNames) := by
  constructor
  · rw [runRecorderCalls_cons]
    have hc : hostId c.1.hostname = h := hall c (List.mem_cons_self _ _)
    have hstep : alGet (recorderHandler noFail true "POST"
        (.parsed (some c.1)) c.2 s).store.users h =
        some ⟨"", c.1.pluginNames.getD []⟩ := by
      rw [recorder_users, hc, updateUser_noFail_create h c.1 s hfresh]
      exact alGet_alSet_self _ _ _
    obtain ⟨rec', h1, h2, h3⟩ := runRecorderCalls_users_aux h rest _
      ⟨"", c.1.pluginNames.getD []⟩
      (fun x hx => hall x (List.mem_cons_of_mem _ hx)) hstep
    refine ⟨rec', h1, ?_, h3⟩
    intro x
    rw [h2 x]
    constructor
    · rintro (hx | ⟨cc, hcc, hx⟩)
      · exact ⟨c, List.mem_cons_self _ _, hx⟩
      · exact ⟨cc, List.mem_cons_of_mem _ hcc, hx⟩
    · rintro ⟨cc, hcc, hx⟩
      rcases List.mem_cons.mp hcc with heq | hcc'
      · exact Or.inl (heq ▸ hx)
      · exact Or.inr ⟨cc, hcc', hx⟩
  · intro b t s1 rec1 x hrec1 hx
    by_cases hb : hostId b.hostname = h
    · cases hnc : (b.pluginNames.getD []).all
          (fun p => rec1.pluginNames.contains p) with
      | true =>
        refine ⟨rec1, ?_, hx⟩
        rw [recorder_users, hb,
          updateUser_noFail_noChange h b s1 rec1 hrec1 hnc]
        exact hrec1
      | false =>
        refine ⟨⟨rec1.name,
          jsDedup (b.pluginNames.getD [] ++ rec1.pluginNames)⟩, ?_, ?_⟩
        · rw [recorder_users, hb,
            updateUser_noFail_merge h b s1 rec1 hrec1 hnc]
          exact alGet_alSet_self _ _ _
        · show x ∈ jsDedup (b.pluginNames.getD [] ++ rec1.pluginNames)
          rw [mem_jsDedup]
          exact List.mem_append_right _ hx
    · refine ⟨rec1, ?_, hx⟩
      rw [recorder_users,
        updateUser_alGet_other noFail (hostId b.hostname) h b s1 hb]
      exact hrec1

/-- A body whose plugin list itself contains a duplicate. -/
def bodyDup : ExpectedRequestBody :=
  ⟨some "foo.cybozu.com", some ["p1", "p1"], none, none, none⟩

/-- C3 counterexample: the creating call stores the request's plugin
list verbatim, so after a single Recorder call whose list is
`["p1", "p1"]` the stored `pluginNames` for the fresh host contains a
duplicate — refuting the claim that the stored list never has duplicate
elements. -/
theorem C3_counterexample :
    alGet (runRecorderCalls [(bodyDup, 0)] emptyStore).users "foo" =
      some ⟨"", ["p1", "p1"]⟩ ∧
    ¬ (["p1", "p1"] : List String).Nodup := by
  refine ⟨by decide, by decide⟩

theorem C3_plugin_union_witness :
    (∀ x ∈ [(bodyFoo, 0)], hostId x.1.hostname = "foo") ∧
    alGet emptyStore.users "foo" = none ∧
    ((∃ rec : UserRecord,
      alGet (runRecorderCalls [(bodyFoo, 0)] emptyStore).users "foo" =
        some rec ∧
      (∀ x, x ∈ rec.pluginNames ↔
        ∃ cc ∈ [(bodyFoo, 0)], x ∈ cc.1.pluginNames.getD []) ∧
      ((bodyFoo.pluginNames.getD []).Nodup → rec.pluginNames.Nodup)) ∧
    (∀ (b : ExpectedRequestBody) (t : Nat) (s1 : Store) (rec1 : UserRecord)
        (x : String),
      alGet s1.users "foo" = some rec1 → x ∈ rec1.pluginNames →
      ∃ rec2 : UserRecord,
        alGet (recorderHandler noFail true "POST" (.parsed (some b)) t
          s1).store.users "foo" = some rec2 ∧ x ∈ rec2.pluginNames)) :=
  ⟨by decide, rfl,
    C3_plugin_union "foo" (bodyFoo, 0) [] emptyStore (by decide) rfl⟩


/-- C5 (amended): with all store calls succeeding, no `summary/{d}`
entry appears until a call whose summary date is `d` occurs (the
Recorder's summary date comes from a clock nine hours ahead of local
time, the Reader's from local time); the first such call writes exactly
one summary whose `numUsers` is the number of hosts with a counter
entry and whose `counter` is the sum of all counters at write time,
provided the counter mapping is non-empty then (the Recorder's own
counter update guarantees this, while a Reader call on an empty mapping
fails without writing); and any later call leaves that entry
unchanged. -/
theorem C5_daily_summary (d : String) (t : Nat) (s : Store)
    (b : ExpectedRequestBody) :
    (alGet s.summary d = none → toISODate (t + 9 * 3600) ≠ d →
      alGet (recorderHandler noFail true "POST" (.parsed (some b)) t
        s).store.summary d = none) ∧
    (alGet s.summary d = none → toISODate t ≠ d →
      alGet (readerHandler noFail "GET" t s).store.summary d = none) ∧
    (alGet s.summary d = none → toISODate (t + 9 * 3600) = d →
      alGet (recorderHandler noFail true "POST" (.parsed (some b)) t
          s).store.summary d =
        some ⟨t + 9 * 3600,
          (recorderHandler noFail true "POST" (.parsed (some b)) t
            s).store.counter.length,
          sumCounters (recorderHandler noFail true "POST"
            (.parsed (some b)) t s).store.counter⟩) ∧
    (alGet s.summary d = none → toISODate t = d → s.counter ≠ [] →
      alGet (readerHandler noFail "GET" t s).store.summary d =
        some ⟨t, s.counter.length, sumCounters s.counter⟩) ∧
    (∀ v : SummaryRecord, alGet s.summary d = some v →
      alGet (recorderHandler noFail true "POST" (.parsed (some b)) t
        s).store.summary d = some v ∧
      alGet (readerHandler noFail "GET" t s).store.summary d = some v) := by
  refine ⟨?_, ?_, ?_, ?_, ?_⟩
  · intro hnone hne
    have hthis : alGet (tryStep (updateSummary noFail t)
        (rtdbSteps noFail b t s)).summary d = none := by
      rw [updateSummary_alGet_ne noFail t _ d hne, rtdbSteps_summary]
      exact hnone
    rw [recorderHandler_post_some]
    exact hthis
  · intro hnone hne
    exact readerHandler_summary_absent noFail "GET" t s d hnone hne
  · intro hnone hd
    have hX : alGet (rtdbSteps noFail b t s).summary d = none := by
      rw [rtdbSteps_summary]
      exact hnone
    have hcnt : (rtdbSteps noFail b t s).counter ≠ [] := by
      rw [rtdbSteps_counter_noFail]
      exact alSet_ne_nil _ _ _
    subst hd
    rw [recorderHandler_post_some, updateSummary_noFail_write t _ hX hcnt]
    exact alGet_alSet_self _ _ _
  · intro hnone hd hc
    subst hd
    rw [readerHandler_noFail_write t s hc hnone]
    exact alGet_alSet_self _ _ _
  · intro v hv
    constructor
    · have hX : alGet (rtdbSteps noFail b t s).summary d = some v := by
        rw [rtdbSteps_summary]
        exact hv
      have hthis := updateSummary_alGet_keep noFail t
        (rtdbSteps noFail b t s) d v hX
      rw [recorderHandler_post_some]
      exact hthis
    · exact readerHandler_summary_keep noFail "GET" t s d v hv

/-- C5 counterexample: with an empty store, a Reader call on date
`toISODate 0` fails with a 500 — `Object.values` of the null counter
snapshot throws — and writes nothing, so after the first reader call on
that date no summary exists; the claim that the first reader or
recorder call on a date always writes the summary is false there. -/
theorem C5_counterexample :
    (readerHandler noFail "GET" 0 emptyStore).status = 500 ∧
    alGet (readerHandler noFail "GET" 0 emptyStore).store.summary
      (toISODate 0) = none := by
  refine ⟨by decide, by decide⟩

theorem C5_daily_summary_witness :
    alGet storeOneHost.summary (toISODate 32400) = none ∧
    toISODate (0 + 9 * 3600) = toISODate 32400 ∧
    alGet (recorderHandler noFail true "POST" (.parsed (some bodyFoo)) 0
        storeOneHost).store.summary (toISODate 32400) =
      some ⟨0 + 9 * 3600,
        (recorderHandler noFail true "POST" (.parsed (some bodyFoo)) 0
          storeOneHost).store.counter.length,
        sumCounters (recorderHandler noFail true "POST"
          (.parsed (some bodyFoo)) 0 storeOneHost).store.counter⟩ :=
  ⟨rfl, rfl,
    (C5_daily_summary (toISODate 32400) 0 storeOneHost bodyFoo).2.2.1 rfl
      rfl⟩

end Ribbit
